import Mathlib

/-!
Shallow embedding of the allocator-fallback crate (src/fallback.rs): the
AllocError type, the Allocator capability with its derived default methods
(allocate_zeroed, grow, grow_zeroed, shrink), the reference-forwarding
adapter, and the Global allocator backed by the process allocator.

Machine memory is modelled as a total map from addresses to byte values.
An allocator instance is modelled in state-passing style: the two required
primitives transform an abstract allocator state and never touch the byte
memory (allocate hands out uninitialized bytes, namely whatever the memory
already holds at those addresses, and deallocate only releases ownership).
The derived default methods additionally thread the byte memory through the
raw writes they perform, modelling ptr::write_bytes and
ptr::copy_from_nonoverlapping.
-/

namespace AllocatorFallback

/-- A (size, alignment) pair describing a memory request; models
alloc::alloc::Layout with fields size and align. -/
structure Layout where
  size : Nat
  align : Nat
deriving DecidableEq

/-- Zero-information failure signal; models the unit struct AllocError. -/
inductive AllocError where
  | mk
deriving DecidableEq

/-- A memory block as returned by allocate: a starting address together with
the observed length in bytes; models a NonNull pointer to a u8 slice. -/
structure Block where
  addr : Nat
  len : Nat
deriving DecidableEq

/-- Machine byte memory: a total map from addresses to byte values. -/
abbrev Mem : Type := Nat → Nat

/-- Models ptr::write_bytes: writes the value val to count bytes starting at
address dst, leaving all other addresses unchanged. -/
def writeBytes (m : Mem) (dst : Nat) (val : Nat) (count : Nat) : Mem :=
  fun a => if dst ≤ a ∧ a < dst + count then val else m a

/-- Models ptr::copy_from_nonoverlapping with dst as the destination: copies
count bytes from src to dst, reading from the memory as it was before the
copy (the two ranges are required to be disjoint in the source, so reading
the pre-copy memory is the defined behaviour). -/
def copyFromNonoverlapping (m : Mem) (dst : Nat) (src : Nat) (count : Nat) :
    Mem :=
  fun a => if dst ≤ a ∧ a < dst + count then m (src + (a - dst)) else m a

/-- The Allocator capability: the two required primitives of the trait.
allocate returns a block or AllocError and may update the allocator state;
deallocate releases a pointer obtained from allocate, given the layout it
was obtained with. -/
structure Allocator (σ : Type) where
  allocate : σ → Layout → Except AllocError Block × σ
  deallocate : σ → Nat → Layout → σ

/-- Default method Allocator::allocate_zeroed: calls allocate and, on
success, writes zero to every byte of the observed length of the returned
block, returning the same block. -/
def allocate_zeroed {σ : Type} (A : Allocator σ) (s : σ) (m : Mem)
    (layout : Layout) : Except AllocError Block × σ × Mem :=
  match A.allocate s layout with
  | (Except.error e, s') => (Except.error e, s', m)
  | (Except.ok p, s') =>
    let len := p.len
    (Except.ok p, s', writeBytes m p.addr 0 len)

/-- Default method Allocator::grow: allocates a block for new_layout; on
failure returns the error with memory and state untouched past the failed
allocate. On success copies old_layout.size bytes from ptr to the start of
the new block, deallocates ptr with old_layout, and returns the new block. -/
def grow {σ : Type} (A : Allocator σ) (s : σ) (m : Mem) (ptr : Nat)
    (old_layout new_layout : Layout) : Except AllocError Block × σ × Mem :=
  match A.allocate s new_layout with
  | (Except.error e, s') => (Except.error e, s', m)
  | (Except.ok new, s') =>
    let m1 := copyFromNonoverlapping m new.addr ptr old_layout.size
    (Except.ok new, A.deallocate s' ptr old_layout, m1)

/-- Default method Allocator::grow_zeroed: like grow, but after copying the
old bytes it zero-fills the rest of the new block, writing
len - old_layout.size zero bytes starting at offset old_layout.size, where
len is the observed length of the new block. -/
def grow_zeroed {σ : Type} (A : Allocator σ) (s : σ) (m : Mem) (ptr : Nat)
    (old_layout new_layout : Layout) : Except AllocError Block × σ × Mem :=
  match A.allocate s new_layout with
  | (Except.error e, s') => (Except.error e, s', m)
  | (Except.ok new, s') =>
    let len := new.len
    let m1 := copyFromNonoverlapping m new.addr ptr old_layout.size
    let m2 := writeBytes m1 (new.addr + old_layout.size) 0
      (len - old_layout.size)
    (Except.ok new, A.deallocate s' ptr old_layout, m2)

/-- Default method Allocator::shrink: allocates a block for new_layout; on
success copies len bytes from ptr into it, where len is the observed length
of the new block, deallocates ptr with old_layout, and returns the new
block. -/
def shrink {σ : Type} (A : Allocator σ) (s : σ) (m : Mem) (ptr : Nat)
    (old_layout new_layout : Layout) : Except AllocError Block × σ × Mem :=
  match A.allocate s new_layout with
  | (Except.error e, s') => (Except.error e, s', m)
  | (Except.ok new, s') =>
    let len := new.len
    let m1 := copyFromNonoverlapping m new.addr ptr len
    (Except.ok new, A.deallocate s' ptr old_layout, m1)

/-- The reference-forwarding adapter: models the impl of Allocator for a
reference to A, which forwards allocate and deallocate unchanged to the
referent. The derived methods are not overridden, so on a reference they
are the default algorithms applied to these forwarded primitives. -/
def refAllocator {σ : Type} (A : Allocator σ) : Allocator σ where
  allocate := fun s layout => A.allocate s layout
  deallocate := fun s ptr layout => A.deallocate s ptr layout

/-- Outcome of Global::allocate: the fatal assertion fires, or the request
fails recoverably with AllocError, or a block is returned. -/
inductive GlobalResult where
  | assertionFailure
  | allocError
  | ok (b : Block)
deriving DecidableEq

/-- Global::allocate. The process allocator (alloc::alloc::alloc) is
modelled as a function from the requested layout to the returned address,
with 0 standing for the null pointer. The code first asserts that
layout.size is not 0 (a fatal assertion that terminates the program), then
requests layout.size bytes at layout.align from the process allocator, maps
a null result to AllocError, and otherwise wraps the returned address into
a block of length layout.size. -/
def Global.allocate (procAlloc : Layout → Nat) (layout : Layout) :
    GlobalResult :=
  if layout.size = 0 then GlobalResult.assertionFailure
  else if procAlloc layout = 0 then GlobalResult.allocError
  else GlobalResult.ok ⟨procAlloc layout, layout.size⟩

/-- Concrete allocator for witnesses: a bump allocator whose state is the
lowest never-handed-out address minus one; returned blocks have exactly the
requested size and a nonzero address. -/
def bumpAlloc : Allocator Nat where
  allocate := fun s l => (Except.ok ⟨s + 1, l.size⟩, s + 1 + l.size)
  deallocate := fun s _ _ => s

/-- Concrete allocator for witnesses whose allocate always fails (bumping a
counter by 1) and whose deallocate adds 100 to the counter, so a deallocate
call is visible in the final state. -/
def failAlloc : Allocator Nat where
  allocate := fun s _ => (Except.error AllocError.mk, s + 1)
  deallocate := fun s _ _ => s + 100

/-- Concrete initial memory for witnesses. -/
def memInit : Mem := fun a => a % 256

/-- A second concrete memory for the shrink noninterference witness: agrees
with memInit below address 20 and differs from it at 20 and above. -/
def memAlt : Mem := fun a => if a < 20 then a % 256 else 17

/-- Concrete small layout for witnesses: 4 bytes, alignment 4. -/
def Lo : Layout := ⟨4, 4⟩

/-- Concrete larger layout for witnesses: 8 bytes, alignment 8. -/
def Ln : Layout := ⟨8, 8⟩

/-- Process allocator model for witnesses: always returns address 7. -/
def procSome : Layout → Nat := fun _ => 7

/-- Writing count bytes of val at dst puts val at every offset below
count. -/
theorem writeBytes_inside (m : Mem) (dst val count i : Nat) (h : i < count) :
    writeBytes m dst val count (dst + i) = val := by
  unfold writeBytes
  rw [if_pos (by omega : dst ≤ dst + i ∧ dst + i < dst + count)]

/-- Writing count bytes at dst leaves addresses outside the range
untouched. -/
theorem writeBytes_outside (m : Mem) (dst val count a : Nat)
    (h : a < dst ∨ dst + count ≤ a) :
    writeBytes m dst val count a = m a := by
  unfold writeBytes
  rw [if_neg (by omega : ¬(dst ≤ a ∧ a < dst + count))]

/-- Copying count bytes from src to dst makes the byte at offset i below
count equal the source byte at the same offset. -/
theorem copyFromNonoverlapping_inside (m : Mem) (dst src count i : Nat)
    (h : i < count) :
    copyFromNonoverlapping m dst src count (dst + i) = m (src + i) := by
  unfold copyFromNonoverlapping
  rw [if_pos (by omega : dst ≤ dst + i ∧ dst + i < dst + count)]
  congr 1
  omega

/-- Copying count bytes to dst leaves addresses outside the range
untouched. -/
theorem copyFromNonoverlapping_outside (m : Mem) (dst src count a : Nat)
    (h : a < dst ∨ dst + count ≤ a) :
    copyFromNonoverlapping m dst src count a = m a := by
  unfold copyFromNonoverlapping
  rw [if_neg (by omega : ¬(dst ≤ a ∧ a < dst + count))]

/-- Reduction of grow when the internal allocate fails. -/
theorem grow_err {σ : Type} (A : Allocator σ) (s s' : σ) (m : Mem)
    (ptr : Nat) (old_layout new_layout : Layout) (e : AllocError)
    (h : A.allocate s new_layout = (Except.error e, s')) :
    grow A s m ptr old_layout new_layout = (Except.error e, s', m) := by
  unfold grow
  rw [h]

/-- Reduction of grow when the internal allocate succeeds. -/
theorem grow_ok {σ : Type} (A : Allocator σ) (s s' : σ) (m : Mem)
    (ptr : Nat) (old_layout new_layout : Layout) (b : Block)
    (h : A.allocate s new_layout = (Except.ok b, s')) :
    grow A s m ptr old_layout new_layout =
      (Except.ok b, A.deallocate s' ptr old_layout,
        copyFromNonoverlapping m b.addr ptr old_layout.size) := by
  unfold grow
  rw [h]

/-- Reduction of grow_zeroed when the internal allocate fails. -/
theorem grow_zeroed_err {σ : Type} (A : Allocator σ) (s s' : σ) (m : Mem)
    (ptr : Nat) (old_layout new_layout : Layout) (e : AllocError)
    (h : A.allocate s new_layout = (Except.error e, s')) :
    grow_zeroed A s m ptr old_layout new_layout = (Except.error e, s', m) := by
  unfold grow_zeroed
  rw [h]

/-- Reduction of grow_zeroed when the internal allocate succeeds. -/
theorem grow_zeroed_ok {σ : Type} (A : Allocator σ) (s s' : σ) (m : Mem)
    (ptr : Nat) (old_layout new_layout : Layout) (b : Block)
    (h : A.allocate s new_layout = (Except.ok b, s')) :
    grow_zeroed A s m ptr old_layout new_layout =
      (Except.ok b, A.deallocate s' ptr old_layout,
        writeBytes (copyFromNonoverlapping m b.addr ptr old_layout.size)
          (b.addr + old_layout.size) 0 (b.len - old_layout.size)) := by
  unfold grow_zeroed
  rw [h]

/-- Reduction of shrink when the internal allocate fails. -/
theorem shrink_err {σ : Type} (A : Allocator σ) (s s' : σ) (m : Mem)
    (ptr : Nat) (old_layout new_layout : Layout) (e : AllocError)
    (h : A.allocate s new_layout = (Except.error e, s')) :
    shrink A s m ptr old_layout new_layout = (Except.error e, s', m) := by
  unfold shrink
  rw [h]

/-- Reduction of shrink when the internal allocate succeeds. -/
theorem shrink_ok {σ : Type} (A : Allocator σ) (s s' : σ) (m : Mem)
    (ptr : Nat) (old_layout new_layout : Layout) (b : Block)
    (h : A.allocate s new_layout = (Except.ok b, s')) :
    shrink A s m ptr old_layout new_layout =
      (Except.ok b, A.deallocate s' ptr old_layout,
        copyFromNonoverlapping m b.addr ptr b.len) := by
  unfold shrink
  rw [h]

/-- Claim C1: for every allocator, old layout, and new layout, if the
internal allocation of the new block inside grow, grow_zeroed, or shrink
fails, the call returns AllocError, the byte memory is returned exactly
unchanged (the old block is not written to), and the resulting allocator
state is exactly the state after the failed allocate, with no deallocate
applied, so the old block is not deallocated and remains owned by the
caller. -/
theorem c1_alloc_failure_no_mutation {σ : Type} (A : Allocator σ)
    (s s' : σ) (m : Mem) (ptr : Nat) (old_layout new_layout : Layout)
    (e : AllocError)
    (h : A.allocate s new_layout = (Except.error e, s')) :
    grow A s m ptr old_layout new_layout = (Except.error e, s', m) ∧
    grow_zeroed A s m ptr old_layout new_layout = (Except.error e, s', m) ∧
    shrink A s m ptr old_layout new_layout = (Except.error e, s', m) :=
  ⟨grow_err A s s' m ptr old_layout new_layout e h,
   grow_zeroed_err A s s' m ptr old_layout new_layout e h,
   shrink_err A s s' m ptr old_layout new_layout e h⟩

/-- Claim C1 witness: concrete instance with the always-failing allocator.
The final state is 1, produced by the failed allocate alone, showing that
deallocate (which would add 100) never ran, and the memory returned is the
initial memory itself. -/
theorem c1_witness :
    failAlloc.allocate 0 Ln = (Except.error AllocError.mk, 1) ∧
    grow failAlloc 0 memInit 5 Lo Ln =
      (Except.error AllocError.mk, 1, memInit) :=
  ⟨rfl, (c1_alloc_failure_no_mutation failAlloc 0 1 memInit 5 Lo Ln
    AllocError.mk rfl).1⟩

/-- Claim C2: every operation of the capability (allocate, deallocate, and
the derived allocate_zeroed, grow, grow_zeroed, shrink) invoked through
one, two, or three levels of the reference-forwarding adapter forwards to
the referent and produces results identical to invoking it on the owned
allocator directly. -/
theorem c2_ref_forwarding {σ : Type} (A : Allocator σ) (s : σ) (m : Mem)
    (ptr : Nat) (layout old_layout new_layout : Layout) :
    ((refAllocator A).allocate s layout = A.allocate s layout ∧
      (refAllocator A).deallocate s ptr layout =
        A.deallocate s ptr layout ∧
      allocate_zeroed (refAllocator A) s m layout =
        allocate_zeroed A s m layout ∧
      grow (refAllocator A) s m ptr old_layout new_layout =
        grow A s m ptr old_layout new_layout ∧
      grow_zeroed (refAllocator A) s m ptr old_layout new_layout =
        grow_zeroed A s m ptr old_layout new_layout ∧
      shrink (refAllocator A) s m ptr old_layout new_layout =
        shrink A s m ptr old_layout new_layout) ∧
    ((refAllocator (refAllocator A)).allocate s layout =
        A.allocate s layout ∧
      (refAllocator (refAllocator A)).deallocate s ptr layout =
        A.deallocate s ptr layout ∧
      allocate_zeroed (refAllocator (refAllocator A)) s m layout =
        allocate_zeroed A s m layout ∧
      grow (refAllocator (refAllocator A)) s m ptr old_layout new_layout =
        grow A s m ptr old_layout new_layout ∧
      grow_zeroed (refAllocator (refAllocator A)) s m ptr old_layout
          new_layout =
        grow_zeroed A s m ptr old_layout new_layout ∧
      shrink (refAllocator (refAllocator A)) s m ptr old_layout new_layout =
        shrink A s m ptr old_layout new_layout) ∧
    ((refAllocator (refAllocator (refAllocator A))).allocate s layout =
        A.allocate s layout ∧
      (refAllocator (refAllocator (refAllocator A))).deallocate s ptr
          layout =
        A.deallocate s ptr layout ∧
      allocate_zeroed (refAllocator (refAllocator (refAllocator A))) s m
          layout =
        allocate_zeroed A s m layout ∧
      grow (refAllocator (refAllocator (refAllocator A))) s m ptr
          old_layout new_layout =
        grow A s m ptr old_layout new_layout ∧
      grow_zeroed (refAllocator (refAllocator (refAllocator A))) s m ptr
          old_layout new_layout =
        grow_zeroed A s m ptr old_layout new_layout ∧
      shrink (refAllocator (refAllocator (refAllocator A))) s m ptr
          old_layout new_layout =
        shrink A s m ptr old_layout new_layout) :=
  ⟨⟨rfl, rfl, rfl, rfl, rfl, rfl⟩,
   ⟨rfl, rfl, rfl, rfl, rfl, rfl⟩,
   ⟨rfl, rfl, rfl, rfl, rfl, rfl⟩⟩

/-- Claim C3: for every allocator, live block at ptr with old layout, and
new layout at least as large and as aligned, a successful grow returns the
newly allocated block, deallocates the old block using the old layout, and
copies exactly old_layout.size bytes from the old block to the start of the
new block: the first old_layout.size bytes of the new block equal the old
contents, and no other address is modified. -/
theorem c3_grow_copies_old_bytes {σ : Type} (A : Allocator σ) (s s' : σ)
    (m : Mem) (ptr : Nat) (old_layout new_layout : Layout) (b : Block)
    (hsize : old_layout.size ≤ new_layout.size)
    (halign : old_layout.align ≤ new_layout.align)
    (h : A.allocate s new_layout = (Except.ok b, s')) :
    grow A s m ptr old_layout new_layout =
      (Except.ok b, A.deallocate s' ptr old_layout,
        copyFromNonoverlapping m b.addr ptr old_layout.size) ∧
    (∀ i, i < old_layout.size →
      (grow A s m ptr old_layout new_layout).2.2 (b.addr + i) =
        m (ptr + i)) ∧
    (∀ a, a < b.addr ∨ b.addr + old_layout.size ≤ a →
      (grow A s m ptr old_layout new_layout).2.2 a = m a) := by
  have hg := grow_ok A s s' m ptr old_layout new_layout b h
  refine ⟨hg, ?_, ?_⟩
  · intro i hi
    rw [hg]
    exact copyFromNonoverlapping_inside m b.addr ptr old_layout.size i hi
  · intro a ha
    rw [hg]
    exact copyFromNonoverlapping_outside m b.addr ptr old_layout.size a ha

/-- Claim C3 witness: growing a 4-byte block at address 5 to an 8-byte
layout with the bump allocator places the old bytes at the start of the new
block at address 1. -/
theorem c3_witness :
    Lo.size ≤ Ln.size ∧ Lo.align ≤ Ln.align ∧
    bumpAlloc.allocate 0 Ln = (Except.ok ⟨1, 8⟩, 9) ∧
    (grow bumpAlloc 0 memInit 5 Lo Ln).2.2 (1 + 2) = memInit (5 + 2) :=
  ⟨by decide, by decide, rfl,
    (c3_grow_copies_old_bytes bumpAlloc 0 9 memInit 5 Lo Ln ⟨1, 8⟩
      (by decide) (by decide) rfl).2.1 2 (by decide)⟩

/-- Claim C4: under the preconditions of grow, a successful grow_zeroed
returns the same value and allocator state as grow, and its final memory is
the memory produced by grow with a zero-fill of the tail applied on top:
zero is written to len - old_layout.size bytes starting at offset
old_layout.size of the new block, where len is the observed length of the
new block. Consequently the first old_layout.size bytes of the new block
equal the old contents and every byte from offset old_layout.size up to the
observed length is zero. The data flow exhibits the order: allocate the new
block, copy the old data, zero the tail, deallocate the old block,
return. -/
theorem c4_grow_zeroed_like_grow_with_zero_tail {σ : Type}
    (A : Allocator σ) (s s' : σ) (m : Mem) (ptr : Nat)
    (old_layout new_layout : Layout) (b : Block)
    (hsize : old_layout.size ≤ new_layout.size)
    (halign : old_layout.align ≤ new_layout.align)
    (h : A.allocate s new_layout = (Except.ok b, s')) :
    (grow_zeroed A s m ptr old_layout new_layout).1 =
      (grow A s m ptr old_layout new_layout).1 ∧
    (grow_zeroed A s m ptr old_layout new_layout).2.1 =
      (grow A s m ptr old_layout new_layout).2.1 ∧
    (grow_zeroed A s m ptr old_layout new_layout).2.2 =
      writeBytes (grow A s m ptr old_layout new_layout).2.2
        (b.addr + old_layout.size) 0 (b.len - old_layout.size) ∧
    (∀ i, i < old_layout.size →
      (grow_zeroed A s m ptr old_layout new_layout).2.2 (b.addr + i) =
        m (ptr + i)) ∧
    (∀ i, old_layout.size ≤ i → i < b.len →
      (grow_zeroed A s m ptr old_layout new_layout).2.2 (b.addr + i) = 0) := by
  have hgz := grow_zeroed_ok A s s' m ptr old_layout new_layout b h
  have hg := grow_ok A s s' m ptr old_layout new_layout b h
  refine ⟨by rw [hgz, hg], by rw [hgz, hg], by rw [hgz, hg], ?_, ?_⟩
  · intro i hi
    rw [hgz]
    show writeBytes (copyFromNonoverlapping m b.addr ptr old_layout.size)
      (b.addr + old_layout.size) 0 (b.len - old_layout.size)
      (b.addr + i) = m (ptr + i)
    rw [writeBytes_outside _ _ _ _ _ (Or.inl (by omega))]
    exact copyFromNonoverlapping_inside m b.addr ptr old_layout.size i hi
  · intro i h1 h2
    rw [hgz]
    show writeBytes (copyFromNonoverlapping m b.addr ptr old_layout.size)
      (b.addr + old_layout.size) 0 (b.len - old_layout.size)
      (b.addr + i) = 0
    have hi : b.addr + i =
        b.addr + old_layout.size + (i - old_layout.size) := by omega
    rw [hi]
    exact writeBytes_inside _ _ _ _ _ (by omega)

/-- Claim C4 witness: growing a 4-byte block at address 5 to the 8-byte
layout with the bump allocator leaves byte 6 of the new 8-byte block at
address 1 equal to zero. -/
theorem c4_witness :
    Lo.size ≤ Ln.size ∧ Lo.align ≤ Ln.align ∧
    bumpAlloc.allocate 0 Ln = (Except.ok ⟨1, 8⟩, 9) ∧
    (grow_zeroed bumpAlloc 0 memInit 5 Lo Ln).2.2 (1 + 6) = 0 :=
  ⟨by decide, by decide, rfl,
    (c4_grow_zeroed_like_grow_with_zero_tail bumpAlloc 0 9 memInit 5 Lo Ln
      ⟨1, 8⟩ (by decide) (by decide) rfl).2.2.2.2 6 (by decide)
      (by decide)⟩

/-- Claim C5: for every allocator, live block at ptr with old layout, and
new layout no larger and no more aligned, a successful shrink returns the
newly allocated block, deallocates the old block with the old layout, and
copies exactly len bytes from the start of the old block into the new
block, where len is the observed length of the new block; given the
capability contract that the observed length is at least the requested
size, the first new_layout.size bytes of the shrunk block equal the first
new_layout.size bytes of the original block. -/
theorem c5_shrink_copies_from_old_start {σ : Type} (A : Allocator σ)
    (s s' : σ) (m : Mem) (ptr : Nat) (old_layout new_layout : Layout)
    (b : Block)
    (hsize : new_layout.size ≤ old_layout.size)
    (halign : new_layout.align ≤ old_layout.align)
    (hlen : new_layout.size ≤ b.len)
    (h : A.allocate s new_layout = (Except.ok b, s')) :
    shrink A s m ptr old_layout new_layout =
      (Except.ok b, A.deallocate s' ptr old_layout,
        copyFromNonoverlapping m b.addr ptr b.len) ∧
    (∀ i, i < b.len →
      (shrink A s m ptr old_layout new_layout).2.2 (b.addr + i) =
        m (ptr + i)) ∧
    (∀ i, i < new_layout.size →
      (shrink A s m ptr old_layout new_layout).2.2 (b.addr + i) =
        m (ptr + i)) := by
  have hs := shrink_ok A s s' m ptr old_layout new_layout b h
  have hcopy : ∀ i, i < b.len →
      (shrink A s m ptr old_layout new_layout).2.2 (b.addr + i) =
        m (ptr + i) := by
    intro i hi
    rw [hs]
    exact copyFromNonoverlapping_inside m b.addr ptr b.len i hi
  exact ⟨hs, hcopy, fun i hi => hcopy i (by omega)⟩

/-- Claim C5 witness: shrinking an 8-byte block at address 10 to the 4-byte
layout with the bump allocator makes byte 1 of the new block at address 1
equal byte 1 of the original block. -/
theorem c5_witness :
    Lo.size ≤ Ln.size ∧ Lo.align ≤ Ln.align ∧
    Lo.size ≤ (4 : Nat) ∧
    bumpAlloc.allocate 0 Lo = (Except.ok ⟨1, 4⟩, 5) ∧
    (shrink bumpAlloc 0 memInit 10 Ln Lo).2.2 (1 + 1) = memInit (10 + 1) :=
  ⟨by decide, by decide, by decide, rfl,
    (c5_shrink_copies_from_old_start bumpAlloc 0 5 memInit 10 Ln Lo ⟨1, 4⟩
      (by decide) (by decide) (by decide) rfl).2.1 1 (by decide)⟩

/-- Claim C6: for every allocator and layout, allocate_zeroed calls
allocate; when allocate succeeds with a block, allocate_zeroed returns that
same block and state with zero written to every byte of the observed length
of the block, so every byte of the result is zero; when allocate fails,
allocate_zeroed fails with the same AllocError and touches nothing. -/
theorem c6_allocate_zeroed_spec {σ : Type} (A : Allocator σ) (s : σ)
    (m : Mem) (layout : Layout) :
    (∀ b s', A.allocate s layout = (Except.ok b, s') →
      allocate_zeroed A s m layout =
        (Except.ok b, s', writeBytes m b.addr 0 b.len) ∧
      ∀ i, i < b.len →
        (allocate_zeroed A s m layout).2.2 (b.addr + i) = 0) ∧
    (∀ e s', A.allocate s layout = (Except.error e, s') →
      allocate_zeroed A s m layout = (Except.error e, s', m)) := by
  constructor
  · intro b s' h
    have hz : allocate_zeroed A s m layout =
        (Except.ok b, s', writeBytes m b.addr 0 b.len) := by
      unfold allocate_zeroed
      rw [h]
    refine ⟨hz, ?_⟩
    intro i hi
    rw [hz]
    exact writeBytes_inside m b.addr 0 b.len i hi
  · intro e s' h
    unfold allocate_zeroed
    rw [h]

/-- Claim C6 witness: allocate_zeroed of the 8-byte layout with the bump
allocator returns the block at address 1 with byte 3 equal to zero. -/
theorem c6_witness :
    bumpAlloc.allocate 0 Ln = (Except.ok ⟨1, 8⟩, 9) ∧
    (allocate_zeroed bumpAlloc 0 memInit Ln).2.2 (1 + 3) = 0 :=
  ⟨rfl,
    ((c6_allocate_zeroed_spec bumpAlloc 0 memInit Ln).1 ⟨1, 8⟩ 9 rfl).2 3
      (by decide)⟩

/-- Claim C7: for every process allocator and every layout of size zero,
Global allocate terminates the program through the fatal assertion: its
outcome is the assertion failure, never AllocError and never a returned
block, so the zero-size case is not reported as a recoverable error. -/
theorem c7_global_zero_size_fatal (procAlloc : Layout → Nat)
    (layout : Layout) (h : layout.size = 0) :
    Global.allocate procAlloc layout = GlobalResult.assertionFailure ∧
    Global.allocate procAlloc layout ≠ GlobalResult.allocError ∧
    ∀ b, Global.allocate procAlloc layout ≠ GlobalResult.ok b := by
  have hg : Global.allocate procAlloc layout =
      GlobalResult.assertionFailure := by
    unfold Global.allocate
    rw [if_pos h]
  refine ⟨hg, ?_, ?_⟩
  · rw [hg]
    exact fun hc => nomatch hc
  · intro b
    rw [hg]
    exact fun hc => nomatch hc

/-- Claim C7 witness: the zero-size layout makes Global allocate hit the
fatal assertion even though the process allocator would return address 7. -/
theorem c7_witness :
    (Layout.mk 0 1).size = 0 ∧
    Global.allocate procSome ⟨0, 1⟩ = GlobalResult.assertionFailure :=
  ⟨rfl, (c7_global_zero_size_fatal procSome ⟨0, 1⟩ rfl).1⟩

/-- Claim C8: for every process allocator and every layout of nonzero size,
Global allocate passes the layout (its size and alignment) to the process
allocator; it returns AllocError exactly when the process allocator returns
the null address, and otherwise returns the block starting at the returned
address with observed length exactly layout.size. -/
theorem c8_global_nonzero_size (procAlloc : Layout → Nat) (layout : Layout)
    (h : layout.size ≠ 0) :
    (Global.allocate procAlloc layout = GlobalResult.allocError ↔
      procAlloc layout = 0) ∧
    (procAlloc layout ≠ 0 →
      Global.allocate procAlloc layout =
        GlobalResult.ok ⟨procAlloc layout, layout.size⟩) := by
  constructor
  · constructor
    · intro hc
      by_contra hne
      have : Global.allocate procAlloc layout =
          GlobalResult.ok ⟨procAlloc layout, layout.size⟩ := by
        unfold Global.allocate
        rw [if_neg h, if_neg hne]
      rw [this] at hc
      exact nomatch hc
    · intro h0
      unfold Global.allocate
      rw [if_neg h, if_pos h0]
  · intro hne
    unfold Global.allocate
    rw [if_neg h, if_neg hne]

/-- Claim C8 witness: with a process allocator returning address 7, Global
allocate of the 8-byte layout returns the block at address 7 with length
8. -/
theorem c8_witness :
    Ln.size ≠ 0 ∧ procSome Ln ≠ 0 ∧
    Global.allocate procSome Ln = GlobalResult.ok ⟨7, 8⟩ :=
  ⟨by decide, by decide,
    (c8_global_nonzero_size procSome Ln (by decide)).2 (by decide)⟩

/-- Claim C9: in grow_zeroed the zero-fill length is the observed length of
the new block minus old_layout.size. For every allocator whose allocate
meets the capability contract (observed length at least the requested
size), and under the grow precondition that new_layout.size is at least
old_layout.size, the subtraction does not underflow
(old_layout.size + (len - old_layout.size) recovers len exactly), the
memory produced is the copy followed by that zero-fill, the zero-filled
region ends exactly at the end of the new block, and no address at or past
the end of the new block differs from what grow alone produces. -/
theorem c9_grow_zeroed_tail_in_bounds {σ : Type} (A : Allocator σ)
    (s s' : σ) (m : Mem) (ptr : Nat) (old_layout new_layout : Layout)
    (b : Block)
    (hcontract : new_layout.size ≤ b.len)
    (hsize : old_layout.size ≤ new_layout.size)
    (h : A.allocate s new_layout = (Except.ok b, s')) :
    old_layout.size ≤ b.len ∧
    old_layout.size + (b.len - old_layout.size) = b.len ∧
    (grow_zeroed A s m ptr old_layout new_layout).2.2 =
      writeBytes (copyFromNonoverlapping m b.addr ptr old_layout.size)
        (b.addr + old_layout.size) 0 (b.len - old_layout.size) ∧
    b.addr + old_layout.size + (b.len - old_layout.size) =
      b.addr + b.len ∧
    (∀ a, b.addr + b.len ≤ a →
      (grow_zeroed A s m ptr old_layout new_layout).2.2 a =
        (grow A s m ptr old_layout new_layout).2.2 a) := by
  have hgz := grow_zeroed_ok A s s' m ptr old_layout new_layout b h
  have hg := grow_ok A s s' m ptr old_layout new_layout b h
  refine ⟨by omega, by omega, by rw [hgz], by omega, ?_⟩
  intro a ha
  rw [hgz, hg]
  show writeBytes (copyFromNonoverlapping m b.addr ptr old_layout.size)
    (b.addr + old_layout.size) 0 (b.len - old_layout.size) a =
    copyFromNonoverlapping m b.addr ptr old_layout.size a
  exact writeBytes_outside _ _ _ _ _ (Or.inr (by omega))

/-- Claim C9 witness: growing from the 4-byte to the 8-byte layout with the
bump allocator, the zero-fill stays inside the new block, so address 20
(past the end of the block at addresses 1 to 8) holds the same byte after
grow_zeroed as after grow. -/
theorem c9_witness :
    Ln.size ≤ (8 : Nat) ∧ Lo.size ≤ Ln.size ∧
    bumpAlloc.allocate 0 Ln = (Except.ok ⟨1, 8⟩, 9) ∧
    (grow_zeroed bumpAlloc 0 memInit 5 Lo Ln).2.2 20 =
      (grow bumpAlloc 0 memInit 5 Lo Ln).2.2 20 :=
  ⟨by decide, by decide, rfl,
    (c9_grow_zeroed_tail_in_bounds bumpAlloc 0 9 memInit 5 Lo Ln ⟨1, 8⟩
      (by decide) (by decide) rfl).2.2.2.2 20 (by decide)⟩

/-- Claim C10: shrink copies as many bytes as the observed length of the
new block, not new_layout.size. For every allocator whose allocate returns
blocks of exactly the requested size (as Global does) and under the shrink
precondition that new_layout.size is at most old_layout.size, the copied
length is at most old_layout.size, and the bytes of the shrunk block depend
only on the first old_layout.size bytes of the old block: two memories
agreeing there yield identical bytes throughout the new block. -/
theorem c10_shrink_reads_within_old_block {σ : Type} (A : Allocator σ)
    (s s' : σ) (m₁ m₂ : Mem) (ptr : Nat) (old_layout new_layout : Layout)
    (b : Block)
    (hexact : b.len = new_layout.size)
    (hsize : new_layout.size ≤ old_layout.size)
    (h : A.allocate s new_layout = (Except.ok b, s'))
    (hagree : ∀ j, j < old_layout.size → m₁ (ptr + j) = m₂ (ptr + j)) :
    b.len ≤ old_layout.size ∧
    ∀ i, i < b.len →
      (shrink A s m₁ ptr old_layout new_layout).2.2 (b.addr + i) =
        (shrink A s m₂ ptr old_layout new_layout).2.2 (b.addr + i) := by
  refine ⟨by omega, ?_⟩
  intro i hi
  have e1 : (shrink A s m₁ ptr old_layout new_layout).2.2 (b.addr + i) =
      m₁ (ptr + i) := by
    rw [shrink_ok A s s' m₁ ptr old_layout new_layout b h]
    exact copyFromNonoverlapping_inside m₁ b.addr ptr b.len i hi
  have e2 : (shrink A s m₂ ptr old_layout new_layout).2.2 (b.addr + i) =
      m₂ (ptr + i) := by
    rw [shrink_ok A s s' m₂ ptr old_layout new_layout b h]
    exact copyFromNonoverlapping_inside m₂ b.addr ptr b.len i hi
  rw [e1, e2]
  exact hagree i (by omega)

/-- Claim C10 witness: shrinking an 8-byte block at address 10 to the
4-byte layout with the bump allocator reads only addresses 10 to 17, so the
two memories memInit and memAlt, which agree below address 20, give the
same bytes in the shrunk block. -/
theorem c10_witness :
    (Block.mk 1 4).len = Lo.size ∧ Lo.size ≤ Ln.size ∧
    bumpAlloc.allocate 0 Lo = (Except.ok ⟨1, 4⟩, 5) ∧
    (∀ j, j < Ln.size → memInit (10 + j) = memAlt (10 + j)) ∧
    (shrink bumpAlloc 0 memInit 10 Ln Lo).2.2 (1 + 2) =
      (shrink bumpAlloc 0 memAlt 10 Ln Lo).2.2 (1 + 2) := by
  have hag : ∀ j, j < Ln.size → memInit (10 + j) = memAlt (10 + j) := by
    intro j hj
    have hj8 : j < 8 := hj
    show (10 + j) % 256 = if 10 + j < 20 then (10 + j) % 256 else 17
    rw [if_pos (by omega : 10 + j < 20)]
  exact ⟨rfl, by decide, rfl, hag,
    (c10_shrink_reads_within_old_block bumpAlloc 0 5 memInit memAlt 10 Ln
      Lo ⟨1, 4⟩ rfl (by decide) rfl hag).2 2 (by decide)⟩

end AllocatorFallback
